import Mathlib

/-!
Verification of the Membership Tracking & Access-Control Reconciliation
subsystem of the devilutionx-gamelist repository.

The repository ships the CLI wrapper `gamelist_cli.py` together with the
test suites `tests/test_bot_db.py` and `tests/test_ztapi_client.py`; the
modules those suites exercise (`bot_db.py`, `ztapi_client.py`) are not part
of the source tree, so their operations are modelled from the specification
and clearly marked as such.  The CLI wrapper is embedded from its source.

Timestamps are integers (seconds); day-based horizons are expressed in
seconds with 86400 seconds per day.
-/

namespace DevilutionxGamelist

/-! ## Data model of the bot database (bot_db.py is absent from the tree) -/

/-- Modelled from the spec: a MemberSighting row of the ActivityLog
(`bot_db.py` is not in the repository): address, player name and
observation time, append-only with no uniqueness constraint. -/
structure MemberSighting where
  address : String
  playerName : String
  observedAt : Int
  deriving DecidableEq, Repr

/-- Modelled from the spec: a PlayerGameSighting row of the ActivityLog
(`bot_db.py` is not in the repository): player name, game name and
observation time, append-only, never merged. -/
structure PlayerGameSighting where
  playerName : String
  gameName : String
  observedAt : Int
  deriving DecidableEq, Repr

/-- Modelled from the spec: a NetworkMember row of the MembershipStore
(`bot_db.py` is not in the repository): member id (unique key), optional
address (empty means unknown), last-seen time and status tag. -/
structure NetworkMember where
  memberId : String
  address : String
  lastSeen : Int
  status : String
  deriving DecidableEq, Repr

/-- Modelled from the spec: the persistent state of the bot database
(`bot_db.py` is not in the repository): the two ActivityLog tables, the
MembershipStore snapshot and the BanList set of addresses. -/
structure BotDb where
  memberLog : List MemberSighting
  gameLog : List PlayerGameSighting
  members : List NetworkMember
  bans : List String
  deriving DecidableEq, Repr

/-- The empty database state. -/
def emptyDb : BotDb := ⟨[], [], [], []⟩

/-- Modelled from the spec: the 30-day freshness horizon of the
MembershipStore, in seconds. -/
def FRESHNESS_SECS : Int := 30 * 86400

/-- Modelled from the spec: the retention horizon of the ActivityLog, in
seconds; the spec fixes the default at 14 days (a 15-day-old row is purged,
a 1-day-old row survives). -/
def RETENTION_SECS : Int := 14 * 86400

/-- Modelled from the spec: the human-readable line for one MemberSighting
row, as produced by the lookup queries; it carries the player name,
address and time. -/
def formatMemberSighting (r : MemberSighting) : String :=
  "player " ++ r.playerName ++ " from " ++ r.address ++ " at " ++ toString r.observedAt

/-- Modelled from the spec: the human-readable line for one
PlayerGameSighting row. -/
def formatPlayerGameSighting (r : PlayerGameSighting) : String :=
  "player " ++ r.playerName ++ " in game " ++ r.gameName ++ " at " ++ toString r.observedAt

/-- Modelled from the spec: the formatted summary line for one
NetworkMember, including the id and status, and the address only if it is
non-empty. -/
def formatNetworkMember (m : NetworkMember) : String :=
  "member " ++ m.memberId ++ (if m.address = "" then "" else " at " ++ m.address)
    ++ " status " ++ m.status

/-- Modelled from the spec: the formatted line of one banned address as
returned by `listBans`. -/
def banLine (a : String) : String := "banned " ++ a

/-- Modelled from the spec: `recordMemberSighting(address, playerName, at)`
appends a row to the member-sighting log; no dedup, append-only. -/
def recordMemberSighting (db : BotDb) (address playerName : String) (observedAt : Int) :
    BotDb :=
  { db with memberLog := db.memberLog ++ [⟨address, playerName, observedAt⟩] }

/-- Modelled from the spec: `recordPlayerGameSighting(playerName, gameName, at)`
appends a row to the player/game log; append-only, not an upsert. -/
def recordPlayerGameSighting (db : BotDb) (playerName gameName : String)
    (observedAt : Int) : BotDb :=
  { db with gameLog := db.gameLog ++ [⟨playerName, gameName, observedAt⟩] }

/-- Modelled from the spec: names are normalized to a canonical (lower)
case at the point of comparison, making lookups case-insensitive. -/
def lowerName (s : String) : String := String.mk (s.data.map Char.toLower)

/-- Modelled from the spec: `findPlayerByName(name)` returns one formatted
line per member-sighting row whose player name matches case-insensitively;
the empty sequence when nothing matches. -/
def findPlayerByName (db : BotDb) (name : String) : List String :=
  (db.memberLog.filter (fun r => lowerName r.playerName = lowerName name)).map
    formatMemberSighting

/-- Modelled from the spec: `findGameByName(name)` is the symmetric
case-insensitive lookup over the player/game log. -/
def findGameByName (db : BotDb) (name : String) : List String :=
  (db.gameLog.filter (fun r => lowerName r.gameName = lowerName name)).map
    formatPlayerGameSighting

/-- Modelled from the spec: `cleanUp()` deletes all ActivityLog rows (both
kinds) whose timestamp is strictly older than the retention horizon
relative to now; rows at or within the horizon survive. -/
def cleanUp (now : Int) (db : BotDb) : BotDb :=
  { db with
    memberLog := db.memberLog.filter (fun r => now - r.observedAt ≤ RETENTION_SECS),
    gameLog := db.gameLog.filter (fun r => now - r.observedAt ≤ RETENTION_SECS) }

/-- Modelled from the spec: `saveMember(memberId, address, lastSeen, status)`
is a conditional upsert: a no-op when `now - lastSeen` exceeds the 30-day
freshness horizon, otherwise insert-or-overwrite keyed by memberId. -/
def saveMember (now : Int) (db : BotDb) (memberId address : String) (lastSeen : Int)
    (status : String) : BotDb :=
  if now - lastSeen > FRESHNESS_SECS then db
  else
    { db with
      members := db.members.filter (fun m => m.memberId ≠ memberId)
        ++ [⟨memberId, address, lastSeen, status⟩] }

/-- Modelled from the spec: `findMemberById(memberId)` returns the formatted
summary line of the stored member, or the empty-string sentinel when the id
is unknown. -/
def findMemberById (db : BotDb) (memberId : String) : String :=
  match db.members.find? (fun m => m.memberId = memberId) with
  | none => ""
  | some m => formatNetworkMember m

/-- Modelled from the spec: `listMembers()` returns all stored members as
formatted lines; freshness is enforced only at write time. -/
def listMembers (db : BotDb) : List String := db.members.map formatNetworkMember

/-- Modelled from the spec: `ban(address)` is an idempotent add to the ban
set; re-adding an already banned address is a no-op. -/
def ban (db : BotDb) (address : String) : BotDb :=
  if address ∈ db.bans then db else { db with bans := db.bans ++ [address] }

/-- Modelled from the spec: `unban(address)` is an idempotent remove;
removing a non-member is a no-op, never an error. -/
def unban (db : BotDb) (address : String) : BotDb :=
  { db with bans := db.bans.filter (fun a => a ≠ address) }

/-- Modelled from the spec: `listBans()` returns all banned addresses as
formatted lines. -/
def listBans (db : BotDb) : List String := db.bans.map banLine

/-- Modelled from the spec: `findMembersToBlock()` joins the MembershipStore
and the BanList by address and returns the member ids whose current status
is not "blocked"; a pure read, so it also hands the state back unchanged. -/
def findMembersToBlock (db : BotDb) : List String × BotDb :=
  ((db.members.filter (fun m => m.address ∈ db.bans ∧ m.status ≠ "blocked")).map
    (fun m => m.memberId), db)

/-! ## The ZeroTier network API client (ztapi_client.py is absent from the tree) -/

/-- Modelled from the spec: one entry of a network's tag schema
(`ztapi_client.py` is not in the repository): the numeric tag id, the
default value and the mapping from enum name to numeric enum value. -/
structure TagInfo where
  id : Nat
  dflt : Nat
  enums : List (String × Nat)
  deriving DecidableEq, Repr

/-- Modelled from the spec: a network descriptor as returned by the remote
API: its id and the tag schema, a mapping from tag name to tag info. -/
structure ZtNetwork where
  id : String
  tagsByName : List (String × TagInfo)
  deriving DecidableEq, Repr

/-- Modelled from the spec: a member descriptor as returned by the remote
API: its id and its tag list of (numeric tag id, numeric value) pairs. -/
structure ZtMember where
  id : String
  tags : List (Nat × Nat)
  deriving DecidableEq, Repr

/-- Modelled from the spec: the outcome of one remote HTTP call as the
client observes it: a decoded success payload, a non-success HTTP status
(401, 404, ...), or a transport failure. -/
inductive ApiResult (α : Type) where
  | ok (value : α)
  | httpError (status : Nat)
  | transportError
  deriving DecidableEq, Repr

/-- Modelled from the spec: `getNetwork(networkId)` returns the network
descriptor on success and none on any non-success response (including
authorization failure); failures are swallowed, never raised. -/
def getNetwork (server : String → ApiResult ZtNetwork) (networkId : String) :
    Option ZtNetwork :=
  match server networkId with
  | ApiResult.ok n => some n
  | _ => none

/-- Modelled from the spec: `getMembers(networkId)` returns the full member
list or none on failure, under the same swallow-on-error contract. -/
def getMembers (server : String → ApiResult (List ZtMember)) (networkId : String) :
    Option (List ZtMember) :=
  match server networkId with
  | ApiResult.ok ms => some ms
  | _ => none

/-- Modelled from the spec: `getMember(networkId, memberId)` returns a single
member descriptor, or none on not-found (404) or any other failure;
not-found and transport failure are indistinguishable to the caller. -/
def getMember (server : String → String → ApiResult ZtMember)
    (networkId memberId : String) : Option ZtMember :=
  match server networkId memberId with
  | ApiResult.ok m => some m
  | _ => none

/-- Modelled from the spec: the replacement tag list built by `tagMember`:
any existing entry for the target tag id is dropped and a single entry
(tagId, value) is appended; all entries for other tag ids are preserved
untouched and in order. -/
def replaceTag (tags : List (Nat × Nat)) (tagId v : Nat) : List (Nat × Nat) :=
  tags.filter (fun p => p.1 ≠ tagId) ++ [(tagId, v)]

/-- Modelled from the spec: `tagMember(network, member, tagName, enumValueName)`
resolves the tag name to a numeric tag id via the network's schema and the
enum name to a numeric value via that tag's enum mapping, and yields the
request body carrying the full replacement tag list; none when resolution
fails (errors are discarded, never raised). -/
def tagMember (network : ZtNetwork) (member : ZtMember) (tagName enumName : String) :
    Option (List (Nat × Nat)) :=
  match network.tagsByName.lookup tagName with
  | none => none
  | some info =>
    match info.enums.lookup enumName with
    | none => none
    | some v => some (replaceTag member.tags info.id v)

/-! ## The CLI wrapper, embedded from src/gamelist_cli.py -/

/-- A JSON value as the CLI reads it from the game-list file.  Numbers are
integers (the game fields the tool reads are integral). -/
inductive JVal where
  | jnull
  | jbool (b : Bool)
  | jnum (n : Int)
  | jstr (s : String)
  | jarr (xs : List JVal)
  | jobj (fields : List (String × JVal))
  deriving Repr

/-- `game.get(key)`: the value stored under the key of an object, none when
the key is absent or the value is not an object. -/
def jget (g : JVal) (key : String) : Option JVal :=
  match g with
  | JVal.jobj fields => fields.lookup key
  | _ => none

/-- `game.get(key, dflt)`: lookup with a default. -/
def jgetD (g : JVal) (key : String) (dflt : JVal) : JVal :=
  (jget g key).getD dflt

/-- Python `str()` of a JSON value as used by format_game.  The fields the
formatter stringifies are scalars; composite values are abbreviated (the
tool never formats one in practice). -/
def jToString : JVal → String
  | JVal.jnull => "None"
  | JVal.jbool b => if b then "True" else "False"
  | JVal.jnum n => toString n
  | JVal.jstr s => s
  | JVal.jarr _ => "[...]"
  | JVal.jobj _ => "dict"

/-- Python equality of a JSON value with an integer literal, as in
`diff_val in (0, 1, 2)` and `tick_rate == 30`: numbers compare by value and
booleans equal 0/1 as in Python. -/
def pyEqNum (v : JVal) (n : Int) : Bool :=
  match v with
  | JVal.jnum m => m == n
  | JVal.jbool b => (if b then (1 : Int) else 0) == n
  | _ => false

/-- Python `int()` of the values that pass the `in (0, 1, 2)` guard. -/
def pyToInt (v : JVal) : Int :=
  match v with
  | JVal.jnum m => m
  | JVal.jbool b => if b then 1 else 0
  | _ => 0

/-- Python truthiness of `game.get(key)`: absent keys give None, which is
falsy; empty strings, zero, empty containers and false are falsy. -/
def pyTruthy : Option JVal → Bool
  | none => false
  | some JVal.jnull => false
  | some (JVal.jbool b) => b
  | some (JVal.jnum n) => !(n == 0)
  | some (JVal.jstr s) => !(s == "")
  | some (JVal.jarr xs) => !xs.isEmpty
  | some (JVal.jobj fs) => !fs.isEmpty

/-- Is the value the JSON null?  (`tick_rate in (20, None)`.) -/
def isJNull : JVal → Bool
  | JVal.jnull => true
  | _ => false

/-- Python `game.get("type") != "DRTL"` is false exactly when the type field
holds the string "DRTL"; this is its negation. -/
def isTypeDRTL (g : JVal) : Bool :=
  match jget g "type" with
  | some (JVal.jstr s) => s == "DRTL"
  | _ => false

/-- The GAME_TYPES table of gamelist_cli.py. -/
def GAME_TYPES : List (String × String) :=
  [("DRTL", "Diablo"), ("DSHR", "Diablo (spawn)"), ("HRTL", "Hellfire"),
   ("HSHR", "Hellfire (spawn)"), ("IRON", "Ironman"), ("MEMD", "Memorial"),
   ("DRDX", "Diablo X"), ("DWKD", "modDiablo"), ("HWKD", "modHellfire")]

/-- The DIFFICULTIES table of gamelist_cli.py. -/
def DIFFICULTIES : List String := ["Normal", "Nightmare", "Hell"]

/-- Uppercasing character by character, extensionally `String.toUpper`. -/
def upperName (s : String) : String := String.mk (s.data.map Char.toUpper)

/-- `str(game.get("id", "???")).upper()`. -/
def game_id_str (g : JVal) : String :=
  upperName (jToString (jgetD g "id" (JVal.jstr "???")))

/-- `GAME_TYPES.get(str(game.get("type", "")), str(game.get("type", "???")))`. -/
def game_type_str (g : JVal) : String :=
  match GAME_TYPES.lookup (jToString (jgetD g "type" (JVal.jstr ""))) with
  | some v => v
  | none => jToString (jgetD g "type" (JVal.jstr "???"))

/-- `str(game.get("version", "?"))`. -/
def version_str (g : JVal) : String :=
  jToString (jgetD g "version" (JVal.jstr "?"))

/-- `DIFFICULTIES[int(diff_val)] if diff_val in (0, 1, 2) else "?"`: the
guard ensures the index is in range, so the in-range lookup uses a default
that is never reached. -/
def difficulty_str (g : JVal) : String :=
  match jget g "difficulty" with
  | none => "?"
  | some v =>
    if pyEqNum v 0 || pyEqNum v 1 || pyEqNum v 2 then
      DIFFICULTIES.getD (pyToInt v).toNat "?"
    else "?"

/-- `players = game.get("players", []); assert isinstance(players, list)`:
some list when the field is a list or absent (the default is a list), none
when a present value is not a list (the assertion fires). -/
def getPlayers (g : JVal) : Option (List JVal) :=
  match jget g "players" with
  | none => some []
  | some (JVal.jarr xs) => some xs
  | some _ => none

/-- The attrs list: RiT, Quests, Theo, Cow, FF, with Theo and Cow suppressed
for type "DRTL", exactly as in format_game. -/
def attrs_list (g : JVal) : List String :=
  (if pyTruthy (jget g "run_in_town") then ["RiT"] else [])
    ++ (if pyTruthy (jget g "full_quests") then ["Quests"] else [])
    ++ (if pyTruthy (jget g "theo_quest") && !isTypeDRTL g then ["Theo"] else [])
    ++ (if pyTruthy (jget g "cow_quest") && !isTypeDRTL g then ["Cow"] else [])
    ++ (if pyTruthy (jget g "friendly_fire") then ["FF"] else [])

/-- The speed suffix computed from `tick_rate = game.get("tick_rate", 20)`:
30/40/50 map to named speeds, 20 and None to no suffix, anything else to a
generic `speed:` suffix.  An absent field takes the default 20. -/
def speed_str (g : JVal) : String :=
  match jget g "tick_rate" with
  | none => ""
  | some v =>
    if pyEqNum v 30 then " Fast"
    else if pyEqNum v 40 then " Faster"
    else if pyEqNum v 50 then " Fastest"
    else if pyEqNum v 20 || isJNull v then ""
    else " speed:" ++ jToString v

/-- The parenthesised attribute suffix. -/
def attr_str (g : JVal) : String :=
  let a := attrs_list g
  if a.isEmpty then "" else " (" ++ String.intercalate ", " a ++ ")"

/-- format_game of gamelist_cli.py: some formatted line, or none when the
assertion on the players field fires (a present non-list value). -/
def format_game (g : JVal) (verbose : Bool) : Option String :=
  match getPlayers g with
  | none => none
  | some ps =>
    let line := game_id_str g ++ ": " ++ game_type_str g ++ " " ++ version_str g
      ++ speed_str g ++ " " ++ difficulty_str g ++ attr_str g ++ " - "
      ++ String.intercalate ", " (ps.map jToString)
    some (if verbose then line ++ " [" ++ jToString (jgetD g "address" (JVal.jstr "?")) ++ "]"
          else line)

/-- The observable outcome of one run of the CLI's main, paired with its
exit code by main_result. -/
inductive CliOutcome where
  | binaryMissing
  | processFailed
  | noGamesTimeout
  | jsonDump
  | noActiveGames
  | gamesListed (lines : List String)
  | crashed
  deriving Repr, BEq

/-- `proc.poll() is not None and proc.returncode != 0` after the wait loop:
true exactly when the discovery binary has exited with nonzero status. -/
def proc_failed : Option Int → Bool
  | some r => !(r == 0)
  | none => false

/-- `data.get("games", [])` of the parsed output file. -/
def games_of (data : JVal) : List JVal :=
  match jget data "games" with
  | some (JVal.jarr xs) => xs
  | _ => []

/-- The decision logic of main after the wait loop, from src/gamelist_cli.py
lines 129-145: a nonzero exit of the binary is a hard failure (exit 1); a
missing output file is the soft no-games outcome (exit 0); otherwise the
file is rendered, with a formatter assertion modelled as a crash. -/
def main_decision (rc : Option Int) (fileExists jsonMode verbose : Bool)
    (data : JVal) : Nat × CliOutcome :=
  if proc_failed rc then (1, CliOutcome.processFailed)
  else if !fileExists then (0, CliOutcome.noGamesTimeout)
  else if jsonMode then (0, CliOutcome.jsonDump)
  else
    let games := games_of data
    if games.isEmpty then (0, CliOutcome.noActiveGames)
    else
      match games.mapM (fun g => format_game g verbose) with
      | some lines => (0, CliOutcome.gamesListed lines)
      | none => (1, CliOutcome.crashed)

/-- main of src/gamelist_cli.py as a function of the run's observations: a
missing binary exits 1 immediately, otherwise the post-wait decision
applies. -/
def main_result (binaryExists : Bool) (rc : Option Int) (fileExists jsonMode verbose : Bool)
    (data : JVal) : Nat × CliOutcome :=
  if !binaryExists then (1, CliOutcome.binaryMissing)
  else main_decision rc fileExists jsonMode verbose data

/-! ## Helper lemmas -/

/-- Formatted member lines are never the empty sentinel. -/
lemma formatNetworkMember_ne_empty (m : NetworkMember) : formatNetworkMember m ≠ "" := by
  intro h
  have hl := congrArg String.length h
  have h7 : ("member " : String).length = 7 := rfl
  have h0 : ("" : String).length = 0 := rfl
  simp only [formatNetworkMember, String.length_append] at hl
  omega

/-- The ban-line formatter is injective, so counting lines counts addresses. -/
lemma banLine_injective : Function.Injective banLine := by
  intro a b h
  have hd := congrArg String.data h
  simp only [banLine, String.data_append] at hd
  exact String.ext (List.append_cancel_left hd)

/-- find? over an append whose left part has no hit scans the right part. -/
lemma find?_append_left_none {α : Type} (p : α → Bool) (l₁ l₂ : List α)
    (h : ∀ x ∈ l₁, ¬p x = true) :
    List.find? p (l₁ ++ l₂) = List.find? p l₂ := by
  rw [List.find?_append, List.find?_eq_none.mpr h, Option.none_or]

/-! ## Claim theorems -/

/-- C1: for every stored member whose address is banned, `findMembersToBlock`
returns that member's id exactly when its status is not "blocked", and the
call hands the state back unchanged (pure read of both stores). -/
theorem findMembersToBlock_joins_bans (db : BotDb) (m : NetworkMember)
    (hw : (db.members.map NetworkMember.memberId).Nodup)
    (hm : m ∈ db.members) (hb : m.address ∈ db.bans) :
    (m.memberId ∈ (findMembersToBlock db).1 ↔ m.status ≠ "blocked") ∧
    (findMembersToBlock db).2 = db := by
  refine ⟨⟨?_, ?_⟩, rfl⟩
  · intro hid
    rcases List.mem_map.mp hid with ⟨m', hm', heq⟩
    rcases List.mem_filter.mp hm' with ⟨hm'mem, hp⟩
    simp only [decide_eq_true_eq] at hp
    have hmm : m' = m := List.inj_on_of_nodup_map hw hm'mem hm heq
    subst hmm
    exact hp.2
  · intro hs
    refine List.mem_map.mpr ⟨m, List.mem_filter.mpr ⟨hm, ?_⟩, rfl⟩
    simp [hb, hs]

/-- C1 witness: a stored allowed member at a banned address is returned, at
the concrete state of the repository's test. -/
def dbC1 : BotDb := ⟨[], [], [⟨"member1", "192.168.1.100", 0, "allowed"⟩], ["192.168.1.100"]⟩

/-- C1 witness: the claim instantiated at the test's state. -/
theorem findMembersToBlock_joins_bans_witness :
    (("member1" : String) ∈ (findMembersToBlock dbC1).1 ↔ ("allowed" : String) ≠ "blocked") ∧
    (findMembersToBlock dbC1).2 = dbC1 :=
  findMembersToBlock_joins_bans dbC1 ⟨"member1", "192.168.1.100", 0, "allowed"⟩
    (by decide) (by decide) (by decide)

/-- C2: `saveMember` with a lastSeen beyond the 30-day freshness horizon is a
no-op (so an unknown id stays at the empty sentinel), and with a lastSeen
within the horizon the member becomes discoverable by `findMemberById`. -/
theorem saveMember_freshness (now : Int) (db : BotDb) (memberId address status : String)
    (lastSeen : Int) :
    (now - lastSeen > FRESHNESS_SECS →
      saveMember now db memberId address lastSeen status = db) ∧
    (now - lastSeen > FRESHNESS_SECS → findMemberById db memberId = "" →
      findMemberById (saveMember now db memberId address lastSeen status) memberId = "") ∧
    (now - lastSeen ≤ FRESHNESS_SECS →
      findMemberById (saveMember now db memberId address lastSeen status) memberId ≠ "") := by
  have hnoop : now - lastSeen > FRESHNESS_SECS →
      saveMember now db memberId address lastSeen status = db := by
    intro h
    simp [saveMember, h]
  refine ⟨hnoop, ?_, ?_⟩
  · intro h hempty
    rw [hnoop h]
    exact hempty
  · intro h
    have hcond : ¬(now - lastSeen > FRESHNESS_SECS) := not_lt.mpr h
    rw [saveMember, if_neg hcond]
    rw [findMemberById]
    have hleft : ∀ x ∈ db.members.filter (fun m => m.memberId ≠ memberId),
        ¬(decide (x.memberId = memberId) = true) := by
      intro x hx
      have := (List.mem_filter.mp hx).2
      simpa using this
    rw [show (({ db with
          members := db.members.filter (fun m => m.memberId ≠ memberId)
            ++ [⟨memberId, address, lastSeen, status⟩] } : BotDb)).members
        = db.members.filter (fun m => m.memberId ≠ memberId)
            ++ [⟨memberId, address, lastSeen, status⟩] from rfl]
    rw [find?_append_left_none _ _ _ hleft]
    have hfind : List.find? (fun x => decide (x.memberId = memberId))
        [(⟨memberId, address, lastSeen, status⟩ : NetworkMember)]
        = some (⟨memberId, address, lastSeen, status⟩ : NetworkMember) := by
      simp [List.find?]
    rw [hfind]
    exact formatNetworkMember_ne_empty _

/-- Unfolding equation for `ban`. -/
lemma ban_def (db : BotDb) (a : String) :
    ban db a = if a ∈ db.bans then db else { db with bans := db.bans ++ [a] } := rfl

/-- A just-banned address is in the ban set. -/
lemma mem_ban_self (db : BotDb) (addr : String) : addr ∈ (ban db addr).bans := by
  by_cases hc : addr ∈ db.bans
  · simp [ban, hc]
  · simp [ban, hc]

/-- C5: ban membership is idempotent.  After `ban(addr)` the set and the
formatted list carry exactly one entry for addr, re-banning changes
nothing; after `unban(addr)` no entry for addr remains, unbanning a
non-member is a no-op; both operations preserve uniqueness. -/
theorem ban_unban_idempotent (db : BotDb) (addr : String) (h : db.bans.Nodup) :
    (ban db addr).bans.count addr = 1 ∧
    (listBans (ban db addr)).count (banLine addr) = 1 ∧
    ban (ban db addr) addr = ban db addr ∧
    (unban db addr).bans.count addr = 0 ∧
    (listBans (unban db addr)).count (banLine addr) = 0 ∧
    (addr ∉ db.bans → unban db addr = db) ∧
    (ban db addr).bans.Nodup ∧
    (unban db addr).bans.Nodup := by
  have hcount : (ban db addr).bans.count addr = 1 := by
    by_cases hc : addr ∈ db.bans
    · simp only [ban_def, if_pos hc]
      exact List.count_eq_one_of_mem h hc
    · simp only [ban_def, if_neg hc]
      show (db.bans ++ [addr]).count addr = 1
      rw [List.count_append, List.count_eq_zero.mpr hc]
      simp
  have hnotmem : addr ∉ (unban db addr).bans := by
    intro hmem
    have := (List.mem_filter.mp hmem).2
    simp at this
  have huncount : (unban db addr).bans.count addr = 0 := List.count_eq_zero.mpr hnotmem
  refine ⟨hcount, ?_, ?_, huncount, ?_, ?_, ?_, ?_⟩
  · show ((ban db addr).bans.map banLine).count (banLine addr) = 1
    rw [List.count_map_of_injective _ banLine banLine_injective]
    exact hcount
  · rw [ban_def (ban db addr), if_pos (mem_ban_self db addr)]
  · show ((unban db addr).bans.map banLine).count (banLine addr) = 0
    rw [List.count_map_of_injective _ banLine banLine_injective]
    exact huncount
  · intro hna
    have hf : db.bans.filter (fun a => a ≠ addr) = db.bans := by
      refine List.filter_eq_self.mpr ?_
      intro a ha
      simp only [decide_eq_true_eq]
      intro heq
      exact hna (heq ▸ ha)
    simp only [unban, hf]
  · by_cases hc : addr ∈ db.bans
    · simpa [ban_def, if_pos hc] using h
    · simp only [ban_def, if_neg hc]
      show (db.bans ++ [addr]).Nodup
      refine List.nodup_append.mpr ⟨h, by simp, ?_⟩
      intro a ha hb
      rw [List.mem_singleton] at hb
      exact hc (hb ▸ ha)
  · exact h.filter _

/-- C5 witness: the claim instantiated at the empty state and the test's
address. -/
theorem ban_unban_idempotent_witness :
    (ban emptyDb "192.168.1.100").bans.count "192.168.1.100" = 1 ∧
    (listBans (ban emptyDb "192.168.1.100")).count (banLine "192.168.1.100") = 1 ∧
    (unban emptyDb "192.168.1.100").bans.count "192.168.1.100" = 0 :=
  ⟨(ban_unban_idempotent emptyDb "192.168.1.100" (by decide)).1,
   (ban_unban_idempotent emptyDb "192.168.1.100" (by decide)).2.1,
   (ban_unban_idempotent emptyDb "192.168.1.100" (by decide)).2.2.2.1⟩

/-- C6: the player/game log is append-only and never merges repeated
(player, game) pairs: two sightings of the same pair at t1 < t2, starting
from a state with no rows for the game, make `findGameByName` return
exactly two rows. -/
theorem recordPlayerGameSighting_append_only (db : BotDb) (P G : String) (t1 t2 : Int)
    (h12 : t1 < t2) (h0 : findGameByName db G = []) :
    (findGameByName
      (recordPlayerGameSighting (recordPlayerGameSighting db P G t1) P G t2) G).length
      = 2 := by
  have _ := h12
  simp only [findGameByName] at h0
  have hfil := List.map_eq_nil_iff.mp h0
  simp [findGameByName, recordPlayerGameSighting, List.filter_append, hfil,
    List.filter_cons]

/-- C6 witness: two sightings of ("Player", "Game") five minutes apart on the
empty state give two rows. -/
theorem recordPlayerGameSighting_append_only_witness :
    (findGameByName
      (recordPlayerGameSighting (recordPlayerGameSighting emptyDb "Player" "Game" 0)
        "Player" "Game" 300) "Game").length = 2 :=
  recordPlayerGameSighting_append_only emptyDb "Player" "Game" 0 300 (by decide) (by decide)

/-- C7: recording a member sighting and looking the player up under any
letter casing of the name returns exactly one line, and that line carries
the recorded name; a name never recorded yields the empty sequence. -/
theorem recordMemberSighting_case_insensitive_find (db : BotDb) (q name addr : String)
    (t : Int) (hq : lowerName q = lowerName name)
    (h0 : ∀ r ∈ db.memberLog, lowerName r.playerName ≠ lowerName q) :
    findPlayerByName db q = [] ∧
    findPlayerByName (recordMemberSighting db addr name t) q
      = ["player " ++ name ++ (" from " ++ addr ++ " at " ++ toString t)] := by
  have hfil : db.memberLog.filter (fun r => lowerName r.playerName = lowerName q) = [] := by
    refine List.filter_eq_nil_iff.mpr ?_
    intro r hr
    simpa using h0 r hr
  constructor
  · simp [findPlayerByName, hfil]
  · simp only [findPlayerByName, recordMemberSighting, List.filter_append, hfil,
      List.filter_cons]
    simp [hq, formatMemberSighting, String.append_assoc]

/-- C7 witness: the test's sighting of "TestPlayer" found under the query
"testplayer". -/
theorem recordMemberSighting_case_insensitive_find_witness :
    findPlayerByName emptyDb "testplayer" = [] ∧
    findPlayerByName (recordMemberSighting emptyDb "fd00::abcd" "TestPlayer" 0) "testplayer"
      = ["player " ++ "TestPlayer" ++ (" from " ++ "fd00::abcd" ++ " at " ++ toString (0 : Int))] :=
  recordMemberSighting_case_insensitive_find emptyDb "testplayer" "TestPlayer" "fd00::abcd" 0
    (by decide) (fun r hr => by simp [emptyDb] at hr)

/-- C8: `cleanUp` keeps exactly the ActivityLog rows (of both kinds) within
the retention horizon: a row 15 days old is removed, a row 1 day old
survives, repeated invocation is idempotent and the empty store is
untouched. -/
theorem cleanUp_retention (now : Int) (db : BotDb) :
    (∀ r ∈ db.memberLog,
      (r ∈ (cleanUp now db).memberLog ↔ now - r.observedAt ≤ RETENTION_SECS)) ∧
    (∀ r ∈ db.gameLog,
      (r ∈ (cleanUp now db).gameLog ↔ now - r.observedAt ≤ RETENTION_SECS)) ∧
    (∀ r ∈ db.memberLog, r.observedAt = now - 15 * 86400 →
      r ∉ (cleanUp now db).memberLog) ∧
    (∀ r ∈ db.memberLog, r.observedAt = now - 1 * 86400 →
      r ∈ (cleanUp now db).memberLog) ∧
    cleanUp now (cleanUp now db) = cleanUp now db ∧
    cleanUp now emptyDb = emptyDb := by
  have hmem : ∀ r ∈ db.memberLog,
      (r ∈ (cleanUp now db).memberLog ↔ now - r.observedAt ≤ RETENTION_SECS) := by
    intro r hr
    simp [cleanUp, List.mem_filter, hr]
  refine ⟨hmem, ?_, ?_, ?_, ?_, rfl⟩
  · intro r hr
    simp [cleanUp, List.mem_filter, hr]
  · intro r hr hobs
    rw [hmem r hr, hobs, RETENTION_SECS]
    omega
  · intro r hr hobs
    rw [hmem r hr, hobs, RETENTION_SECS]
    omega
  · have hm : (cleanUp now db).memberLog.filter
        (fun r => now - r.observedAt ≤ RETENTION_SECS) = (cleanUp now db).memberLog := by
      refine List.filter_eq_self.mpr ?_
      intro a ha
      exact (List.mem_filter.mp ha).2
    have hg : (cleanUp now db).gameLog.filter
        (fun r => now - r.observedAt ≤ RETENTION_SECS) = (cleanUp now db).gameLog := by
      refine List.filter_eq_self.mpr ?_
      intro a ha
      exact (List.mem_filter.mp ha).2
    show ({ cleanUp now db with
      memberLog := (cleanUp now db).memberLog.filter
        (fun r => now - r.observedAt ≤ RETENTION_SECS),
      gameLog := (cleanUp now db).gameLog.filter
        (fun r => now - r.observedAt ≤ RETENTION_SECS) } : BotDb) = cleanUp now db
    rw [hm, hg]

/-- C3: `tagMember` resolves the tag and enum names through the schema and
issues a request body in which the entry for the target tag id is replaced
by (tagId, enumValue) while every entry for another tag id is preserved
unchanged; on existing tags [[2,7]] and target tag id 1 the body carries
both [2,7] and [1,v]. -/
theorem tagMember_replaces_target_preserves_rest (network : ZtNetwork) (member : ZtMember)
    (tagName enumName : String) (info : TagInfo) (v : Nat)
    (h1 : network.tagsByName.lookup tagName = some info)
    (h2 : info.enums.lookup enumName = some v) :
    ∃ body, tagMember network member tagName enumName = some body ∧
      (info.id, v) ∈ body ∧
      (∀ p ∈ member.tags, p.1 ≠ info.id → p ∈ body) ∧
      (∀ p ∈ body, p.1 = info.id → p = (info.id, v)) ∧
      (∀ p ∈ body, p.1 ≠ info.id → p ∈ member.tags) ∧
      (member.tags = [(2, 7)] → info.id = 1 → body = [(2, 7), (1, v)]) := by
  refine ⟨replaceTag member.tags info.id v, ?_, ?_, ?_, ?_, ?_, ?_⟩
  · simp [tagMember, h1, h2]
  · simp [replaceTag]
  · intro p hp hne
    exact List.mem_append_left _ (List.mem_filter.mpr ⟨hp, by simpa using hne⟩)
  · intro p hp heq
    rcases List.mem_append.mp hp with hl | hr
    · have := (List.mem_filter.mp hl).2
      simp only [decide_eq_true_eq] at this
      exact absurd heq this
    · simpa using hr
  · intro p hp hne
    rcases List.mem_append.mp hp with hl | hr
    · exact (List.mem_filter.mp hl).1
    · rw [List.mem_singleton] at hr
      exact absurd (congrArg Prod.fst hr) hne
  · intro htags hid
    rw [replaceTag, htags, hid]
    simp

/-- C3 witness fixture: the test network's schema — tag "status" has id 1
and enum values allowed = 0, blocked = 1. -/
def netC3 : ZtNetwork := ⟨"abc123", [("status", ⟨1, 0, [("allowed", 0), ("blocked", 1)]⟩)]⟩

/-- C3 witness fixture: a member holding the untouched tag entry [2,7]. -/
def memC3 : ZtMember := ⟨"member1", [(2, 7)]⟩

/-- C3 witness: tagging the member blocked on the test schema. -/
theorem tagMember_replaces_target_preserves_rest_witness :
    ∃ body, tagMember netC3 memC3 "status" "blocked" = some body ∧
      ((1 : Nat), (1 : Nat)) ∈ body ∧
      (∀ p ∈ memC3.tags, p.1 ≠ 1 → p ∈ body) ∧
      (∀ p ∈ body, p.1 = 1 → p = (1, 1)) ∧
      (∀ p ∈ body, p.1 ≠ 1 → p ∈ memC3.tags) ∧
      (memC3.tags = [(2, 7)] → 1 = 1 → body = [(2, 7), (1, 1)]) :=
  tagMember_replaces_target_preserves_rest netC3 memC3 "status" "blocked"
    ⟨1, 0, [("allowed", 0), ("blocked", 1)]⟩ 1 (by decide) (by decide)

/-- C4: the remote client swallows every failure: `getNetwork` returns none
on any non-success response, including an authorization failure (401),
`getMembers` and `getMember` behave the same (404 included), and
`tagMember` discards a failed schema resolution instead of raising. -/
theorem apiClient_swallows_failures (networkId memberId : String)
    (srvN : String → ApiResult ZtNetwork) (srvL : String → ApiResult (List ZtMember))
    (srvM : String → String → ApiResult ZtMember) (net : ZtNetwork) (mem : ZtMember)
    (tagName enumName : String) :
    (∀ status, srvN networkId = ApiResult.httpError status →
      getNetwork srvN networkId = none) ∧
    (srvN networkId = ApiResult.transportError → getNetwork srvN networkId = none) ∧
    getNetwork (fun _ => ApiResult.httpError 401) networkId = none ∧
    (∀ status, srvL networkId = ApiResult.httpError status →
      getMembers srvL networkId = none) ∧
    (srvL networkId = ApiResult.transportError → getMembers srvL networkId = none) ∧
    (∀ status, srvM networkId memberId = ApiResult.httpError status →
      getMember srvM networkId memberId = none) ∧
    (srvM networkId memberId = ApiResult.transportError →
      getMember srvM networkId memberId = none) ∧
    getMember (fun _ _ => ApiResult.httpError 404) networkId memberId = none ∧
    (net.tagsByName.lookup tagName = none → tagMember net mem tagName enumName = none) := by
  refine ⟨?_, ?_, rfl, ?_, ?_, ?_, ?_, rfl, ?_⟩
  · intro status h
    simp [getNetwork, h]
  · intro h
    simp [getNetwork, h]
  · intro status h
    simp [getMembers, h]
  · intro h
    simp [getMembers, h]
  · intro status h
    simp [getMember, h]
  · intro h
    simp [getMember, h]
  · intro h
    simp [tagMember, h]

/-- C9: when the discovery binary is present, a run in which the output file
never appears before the timeout (and the binary has not failed) exits 0
with the soft no-games outcome, while a nonzero exit of the binary is a
hard failure exiting 1, whatever the file state. -/
theorem main_exit_code_spec (rc : Option Int) (fileExists jsonMode verbose : Bool)
    (data : JVal) :
    (proc_failed rc = false →
      main_result true rc false jsonMode verbose data = (0, CliOutcome.noGamesTimeout)) ∧
    (∀ r : Int, rc = some r → r ≠ 0 →
      main_result true rc fileExists jsonMode verbose data = (1, CliOutcome.processFailed)) := by
  constructor
  · intro h
    simp [main_result, main_decision, h]
  · intro r hr hne
    subst hr
    simp [main_result, main_decision, proc_failed, hne]

/-- C10: `format_game` is total on every game whose players field is a list
(or absent): it returns a line instead of raising; a difficulty outside
{0, 1, 2}, absent included, renders as "?" instead of indexing the
difficulty table; an absent tick_rate takes the default (no speed suffix)
and an unrecognised one falls back to a generic suffix; an absent or
unrecognised type falls back to the default rendering. -/
theorem format_game_total_and_fallbacks (g : JVal) (verbose : Bool) :
    ((getPlayers g).isSome → ∃ s, format_game g verbose = some s) ∧
    ((jget g "difficulty" = none ∨
        ∀ v, jget g "difficulty" = some v →
          pyEqNum v 0 = false ∧ pyEqNum v 1 = false ∧ pyEqNum v 2 = false) →
      difficulty_str g = "?") ∧
    (jget g "tick_rate" = none → speed_str g = "") ∧
    (∀ v, jget g "tick_rate" = some v →
      pyEqNum v 30 = false → pyEqNum v 40 = false → pyEqNum v 50 = false →
      pyEqNum v 20 = false → isJNull v = false →
      speed_str g = " speed:" ++ jToString v) ∧
    (jget g "type" = none → game_type_str g = "???") ∧
    (∀ s, jget g "type" = some (JVal.jstr s) → GAME_TYPES.lookup s = none →
      game_type_str g = s) := by
  refine ⟨?_, ?_, ?_, ?_, ?_, ?_⟩
  · intro h
    cases heq : getPlayers g with
    | none => rw [heq] at h; simp at h
    | some ps =>
      simp only [format_game, heq]
      exact ⟨_, rfl⟩
  · intro h
    cases heq : jget g "difficulty" with
    | none => simp [difficulty_str, heq]
    | some v =>
      rcases h with h | h
      · rw [heq] at h; cases h
      · rcases h v heq with ⟨e0, e1, e2⟩
        simp [difficulty_str, heq, e0, e1, e2]
  · intro h
    simp [speed_str, h]
  · intro v hv e30 e40 e50 e20 enull
    simp [speed_str, hv, e30, e40, e50, e20, enull]
  · intro h
    simp only [game_type_str, jgetD, h, Option.getD, jToString]
    decide
  · intro s hs hlk
    simp [game_type_str, jgetD, hs, jToString, hlk]

end DevilutionxGamelist
